import Mathlib

/-!
Shallow embedding of `src/watchdog/polling_observer.py`: the polling event
producer (`_PollingEventProducer`) and the observer/dispatcher
(`PollingObserver`).

External collaborators (the snapshot provider `DirectorySnapshot`, the
snapshot subtraction operator producing a diff, and the event classes from
`events`) are modelled abstractly: a snapshot is opaque data handed to each
poll, and the subtraction `new_snapshot - self.snapshot` is a function
parameter `sub`.  Threads are modelled by explicit state passing: each
blocking point of a loop becomes one element of an input list describing
what the environment did there.
-/

/-- A filesystem path, as the untyped strings the Python code passes around. -/
abbrev PathStr := String

/-- Handlers are identified abstractly; whether a given handler's `dispatch`
raises on a given event is supplied to the dispatch loop as an oracle. -/
abbrev HandlerId := Nat

/-- External `DirectorySnapshot`: an inventory of paths with metadata,
opaque to this core. -/
structure DirectorySnapshot where
  stat_info : List (PathStr × Nat)
deriving Repr, DecidableEq

/-- External snapshot diff, with the eight category collections the producer
iterates over (`files_moved` and `dirs_moved` are dicts in the source; their
`.items()` iteration is a list of (old path, new path) pairs here). -/
structure DirSnapshotDiff where
  files_deleted : List PathStr
  files_modified : List PathStr
  files_created : List PathStr
  files_moved : List (PathStr × PathStr)
  dirs_modified : List PathStr
  dirs_deleted : List PathStr
  dirs_created : List PathStr
  dirs_moved : List (PathStr × PathStr)
deriving Repr, DecidableEq

/-- The event classes used by the producer (imported from `events` in the
source), one constructor per class. -/
inductive FileSystemEvent
  | FileDeletedEvent (path : PathStr)
  | FileModifiedEvent (path : PathStr)
  | FileCreatedEvent (path : PathStr)
  | FileMovedEvent (path : PathStr) (new_path : PathStr)
  | DirDeletedEvent (path : PathStr)
  | DirModifiedEvent (path : PathStr)
  | DirCreatedEvent (path : PathStr)
  | DirMovedEvent (path : PathStr) (new_path : PathStr)
deriving Repr, DecidableEq

/-- What producers put on the observer's queue: `(self.path, event)`. -/
abbrev QueueEntry := PathStr × FileSystemEvent

/-- State of one `_PollingEventProducer`.  `out_event_queue` is `None` or the
queue contents it appends to; `stopped` is the `threading.Event` flag;
`snapshot` is the stored previous snapshot; `started` records whether the
thread's `start()` has been called. -/
structure PollingEventProducer where
  interval : Nat
  out_event_queue : Option (List QueueEntry)
  stopped : Bool
  snapshot : Option DirectorySnapshot
  path : PathStr
  started : Bool
deriving Repr, DecidableEq

/-- Source `_PollingEventProducer.__init__`: records interval, queue and path; the
stop flag is clear and no snapshot is stored yet; the thread is not started. -/
def PollingEventProducer.init (path : PathStr) (interval : Nat)
    (out_event_queue : Option (List QueueEntry)) : PollingEventProducer :=
  { interval := interval, out_event_queue := out_event_queue,
    stopped := false, snapshot := none, path := path, started := false }

/-- Source `_PollingEventProducer.stop`: sets the stop flag. -/
def PollingEventProducer.stop (p : PollingEventProducer) : PollingEventProducer :=
  { p with stopped := true }

/-- Source `_PollingEventProducer._get_directory_snapshot_diff`.  `current` is the
`DirectorySnapshot(self.path)` taken by this poll and `sub` the external
subtraction `new_snapshot - self.snapshot`.  First poll: store the snapshot,
return `None`; later polls: return the diff and store the new snapshot. -/
def PollingEventProducer.get_directory_snapshot_diff
    (sub : DirectorySnapshot → DirectorySnapshot → DirSnapshotDiff)
    (p : PollingEventProducer) (current : DirectorySnapshot) :
    PollingEventProducer × Option DirSnapshotDiff :=
  match p.snapshot with
  | none => ({ p with snapshot := some current }, none)
  | some prev => ({ p with snapshot := some current }, some (sub current prev))

/-- The eight `q.put((self.path, ...))` loops in `_PollingEventProducer.run`,
in the source's textual order. -/
def emit_event_diff (path : PathStr) (diff : DirSnapshotDiff) : List QueueEntry :=
  diff.files_deleted.map (fun p => (path, FileSystemEvent.FileDeletedEvent p)) ++
  diff.files_modified.map (fun p => (path, FileSystemEvent.FileModifiedEvent p)) ++
  diff.files_created.map (fun p => (path, FileSystemEvent.FileCreatedEvent p)) ++
  diff.files_moved.map (fun pr => (path, FileSystemEvent.FileMovedEvent pr.1 pr.2)) ++
  diff.dirs_modified.map (fun p => (path, FileSystemEvent.DirModifiedEvent p)) ++
  diff.dirs_deleted.map (fun p => (path, FileSystemEvent.DirDeletedEvent p)) ++
  diff.dirs_created.map (fun p => (path, FileSystemEvent.DirCreatedEvent p)) ++
  diff.dirs_moved.map (fun pr => (path, FileSystemEvent.DirMovedEvent pr.1 pr.2))

/-- One iteration body of `_PollingEventProducer.run` after the wait:
`diff = self._get_directory_snapshot_diff()`, then
`if diff and self.out_event_queue:` emit every category onto the queue. -/
def PollingEventProducer.poll_once
    (sub : DirectorySnapshot → DirectorySnapshot → DirSnapshotDiff)
    (p : PollingEventProducer) (current : DirectorySnapshot) :
    PollingEventProducer :=
  match p.get_directory_snapshot_diff sub current with
  | (p1, some d) =>
      match p1.out_event_queue with
      | some q => { p1 with out_event_queue := some (q ++ emit_event_diff p1.path d) }
      | none => p1
  | (p1, none) => p1

/-- Environment input to one producer-loop iteration: whether `stop()` was
called during `self.stopped.wait(self.interval)`, and the snapshot the poll
then observes. -/
structure PollInput where
  stop_during_wait : Bool
  observed : DirectorySnapshot
deriving Repr, DecidableEq

/-- Source `_PollingEventProducer.run`: `while not self.stopped.is_set():` wait for
the interval (during which a concurrent `stop()` may set the flag), then poll
and emit.  The flag is read only at the loop head, so a poll that has begun
always runs to completion. -/
def PollingEventProducer.run (sub : DirectorySnapshot → DirectorySnapshot → DirSnapshotDiff) :
    PollingEventProducer → List PollInput → PollingEventProducer
  | p, [] => p
  | p, inp :: rest =>
      if p.stopped then p
      else
        let p1 := if inp.stop_during_wait then { p with stopped := true } else p
        PollingEventProducer.run sub (p1.poll_once sub inp.observed) rest

/-- One entry of `PollingObserver.rules`: the per-path dict with the keys
`event_handler` and `event_producer_thread`. -/
structure WatchRule where
  event_handler : HandlerId
  event_producer_thread : PollingEventProducer
deriving Repr, DecidableEq

/-- State of a `PollingObserver`: the shared event queue, the set of
producer threads (kept in insertion order) and the rule dict (an association
list keyed by the path string exactly as passed to `add_rule`). -/
structure PollingObserver where
  interval : Nat
  event_queue : List QueueEntry
  event_producer_threads : List PollingEventProducer
  rules : List (PathStr × WatchRule)
deriving Repr, DecidableEq

/-- Source `PollingObserver.__init__`: empty queue, no producer threads, no rules. -/
def PollingObserver.init (interval : Nat) : PollingObserver :=
  { interval := interval, event_queue := [], event_producer_threads := [], rules := [] }

/-- Source `PollingObserver.add_rule`: if the path is not yet a key of `rules`,
construct a producer bound to the shared queue, add it to the thread set and
record the rule; otherwise do nothing.  The path is used exactly as given. -/
def PollingObserver.add_rule (o : PollingObserver) (path : PathStr)
    (event_handler : HandlerId) : PollingObserver :=
  if (o.rules.lookup path).isSome then o
  else
    let t := PollingEventProducer.init path o.interval (some o.event_queue)
    { o with
      event_producer_threads := o.event_producer_threads ++ [t],
      rules := o.rules ++ [(path, ⟨event_handler, t⟩)] }

/-- Source `PollingObserver.remove_rule`: if the path is a key of `rules`, pop the
rule, call `stop()` on its producer and drop that producer from the thread
set (the producer of a rule is the unique thread watching that path). -/
def PollingObserver.remove_rule (o : PollingObserver) (path : PathStr) : PollingObserver :=
  match o.rules.lookup path with
  | none => o
  | some _ =>
      { o with
        rules := o.rules.filter (fun pr => pr.1 != path),
        event_producer_threads :=
          o.event_producer_threads.filter (fun t => t.path != path) }

/-- How the inner `while True` of `PollingObserver.run` ends (apart from an
external `KeyboardInterrupt`, which is not modelled): it blocks forever on
`event_queue.get()` once the queue is drained, or a lookup
`self.rules[rule_path]` raises `KeyError`, or a handler's `dispatch` raises;
neither exception is caught by the `except KeyboardInterrupt` clause. -/
inductive DispatchOutcome
  | blocked_on_get
  | key_error (path : PathStr)
  | handler_error (handler : HandlerId) (event : FileSystemEvent)
deriving Repr, DecidableEq

/-- The inner `while True` of `PollingObserver.run`, consuming the queued
entries in FIFO order: pop `(rule_path, event)`, look up
`self.rules[rule_path]` (KeyError if absent), call
`event_handler.dispatch(event)` (`raises` says whether that call raises).
Returns the successfully dispatched `(handler, event)` pairs and how the
loop ended. -/
def dispatch_loop (rules : List (PathStr × WatchRule))
    (raises : HandlerId → FileSystemEvent → Bool) :
    List QueueEntry → List (HandlerId × FileSystemEvent) × DispatchOutcome
  | [] => ([], DispatchOutcome.blocked_on_get)
  | (rule_path, event) :: rest =>
      match rules.lookup rule_path with
      | none => ([], DispatchOutcome.key_error rule_path)
      | some r =>
          if raises r.event_handler event then
            ([], DispatchOutcome.handler_error r.event_handler event)
          else
            let (delivered, out) := dispatch_loop rules raises rest
            ((r.event_handler, event) :: delivered, out)

/-- How `PollingObserver.run` ends: normally (only possible when the thread
set is empty, since the dispatch loop never breaks), blocked on the queue, or
by an uncaught exception escaping the `for` loop. -/
inductive RunOutcome
  | returned
  | blocked_on_get
  | raised_key_error (path : PathStr)
  | raised_handler_error (handler : HandlerId) (event : FileSystemEvent)
deriving Repr, DecidableEq

/-- Source `PollingObserver.run`: `for t in self.event_producer_threads: t.start()`
followed — inside the `for` body — by the dispatch `while True`.  With no
threads the `for` body never runs and `run` returns at once; otherwise the
first thread is started and the dispatch loop is entered and never left
(block or uncaught exception), so no further thread is ever started. -/
def PollingObserver.run (o : PollingObserver)
    (raises : HandlerId → FileSystemEvent → Bool) :
    PollingObserver × List (HandlerId × FileSystemEvent) × RunOutcome :=
  match o.event_producer_threads with
  | [] => (o, [], RunOutcome.returned)
  | t :: rest =>
      let o1 := { o with event_producer_threads := { t with started := true } :: rest }
      let (delivered, out) := dispatch_loop o1.rules raises o1.event_queue
      (o1, delivered,
        match out with
        | DispatchOutcome.blocked_on_get => RunOutcome.blocked_on_get
        | DispatchOutcome.key_error p => RunOutcome.raised_key_error p
        | DispatchOutcome.handler_error h e => RunOutcome.raised_handler_error h e)

/-- Source `PollingObserver.stop`: call `stop()` on every producer thread (the
dispatcher itself is not signalled). -/
def PollingObserver.stop (o : PollingObserver) : PollingObserver :=
  { o with event_producer_threads :=
      o.event_producer_threads.map PollingEventProducer.stop }

/-- Modelled from the spec: the canonicalization (absolute, resolved path)
that §3 and §9 make the identity of a watch; `os.path.realpath`/`abspath`
are external to the repository (the source applies them only to build the
thread name).  The fragment of resolution relevant here: a trailing slash
resolves to the same directory. -/
def canonicalize (p : PathStr) : PathStr :=
  let cs := p.toList
  if 1 < cs.length && cs.getLast? == some '/' then String.mk cs.dropLast else p

/-- The per-poll emission order exactly as the specification words it:
deleted, modified, created, moved — files then dirs. -/
def spec_emit_order (path : PathStr) (diff : DirSnapshotDiff) : List QueueEntry :=
  diff.files_deleted.map (fun p => (path, FileSystemEvent.FileDeletedEvent p)) ++
  diff.files_modified.map (fun p => (path, FileSystemEvent.FileModifiedEvent p)) ++
  diff.files_created.map (fun p => (path, FileSystemEvent.FileCreatedEvent p)) ++
  diff.files_moved.map (fun pr => (path, FileSystemEvent.FileMovedEvent pr.1 pr.2)) ++
  diff.dirs_deleted.map (fun p => (path, FileSystemEvent.DirDeletedEvent p)) ++
  diff.dirs_modified.map (fun p => (path, FileSystemEvent.DirModifiedEvent p)) ++
  diff.dirs_created.map (fun p => (path, FileSystemEvent.DirCreatedEvent p)) ++
  diff.dirs_moved.map (fun pr => (path, FileSystemEvent.DirMovedEvent pr.1 pr.2))

/-- The amended per-poll emission order: files deleted, modified, created,
moved, then dirs modified, deleted, created, moved — i.e. within the dir
block the modified events precede the deleted ones. -/
def amended_emit_order (path : PathStr) (diff : DirSnapshotDiff) : List QueueEntry :=
  (diff.files_deleted.map (fun p => (path, FileSystemEvent.FileDeletedEvent p)) ++
   diff.files_modified.map (fun p => (path, FileSystemEvent.FileModifiedEvent p)) ++
   diff.files_created.map (fun p => (path, FileSystemEvent.FileCreatedEvent p)) ++
   diff.files_moved.map (fun pr => (path, FileSystemEvent.FileMovedEvent pr.1 pr.2))) ++
  (diff.dirs_modified.map (fun p => (path, FileSystemEvent.DirModifiedEvent p)) ++
   diff.dirs_deleted.map (fun p => (path, FileSystemEvent.DirDeletedEvent p)) ++
   diff.dirs_created.map (fun p => (path, FileSystemEvent.DirCreatedEvent p)) ++
   diff.dirs_moved.map (fun pr => (path, FileSystemEvent.DirMovedEvent pr.1 pr.2)))

/-- A diff of one poll in which one directory was deleted and another
directory was modified (all other categories empty). -/
def dirMixDiff : DirSnapshotDiff :=
  { files_deleted := [], files_modified := [], files_created := [], files_moved := [],
    dirs_modified := ["/w/m"], dirs_deleted := ["/w/d"], dirs_created := [], dirs_moved := [] }

lemma poll_once_stopped (sub : DirectorySnapshot → DirectorySnapshot → DirSnapshotDiff)
    (p : PollingEventProducer) (current : DirectorySnapshot) :
    (p.poll_once sub current).stopped = p.stopped := by
  cases hs : p.snapshot <;> cases hq : p.out_event_queue <;>
    simp [PollingEventProducer.poll_once, PollingEventProducer.get_directory_snapshot_diff, hs, hq]

lemma run_of_stopped (sub : DirectorySnapshot → DirectorySnapshot → DirSnapshotDiff)
    (p : PollingEventProducer) (inputs : List PollInput) (h : p.stopped = true) :
    PollingEventProducer.run sub p inputs = p := by
  cases inputs with
  | nil => rfl
  | cons a l => simp [PollingEventProducer.run, h]

lemma poll_once_queue_none (sub : DirectorySnapshot → DirectorySnapshot → DirSnapshotDiff)
    (p : PollingEventProducer) (snap : DirectorySnapshot) (h : p.out_event_queue = none) :
    p.poll_once sub snap = { p with snapshot := some snap } := by
  cases hs : p.snapshot <;>
    simp [PollingEventProducer.poll_once, PollingEventProducer.get_directory_snapshot_diff, hs, h]

lemma run_queue_none (sub : DirectorySnapshot → DirectorySnapshot → DirSnapshotDiff)
    (inputs : List PollInput) :
    ∀ p : PollingEventProducer, p.out_event_queue = none →
      (PollingEventProducer.run sub p inputs).out_event_queue = none := by
  induction inputs with
  | nil => exact fun p h => h
  | cons a l ih =>
      intro p h
      by_cases hs : p.stopped = true
      · simpa [PollingEventProducer.run, hs] using h
      · have hs2 : p.stopped = false := by simpa using hs
        cases hw : a.stop_during_wait <;>
          simp [PollingEventProducer.run, hs2, hw] <;>
          rw [poll_once_queue_none sub _ _ (by simp [h])] <;>
          exact ih _ (by simp [h])

/-- C5: once the producer has observed its stop flag at the loop head it
never starts another poll (the state, snapshot included, is unchanged no
matter how many further iterations the environment offers); and when
`stop()` arrives during the wait of an iteration that has begun, that
iteration's poll still completes and its events are still appended to the
queue — exactly the effect of `poll_once` — after which nothing further
runs. -/
theorem producer_stop_semantics (sub : DirectorySnapshot → DirectorySnapshot → DirSnapshotDiff)
    (p : PollingEventProducer) (inputs rest : List PollInput) (snap : DirectorySnapshot) :
    PollingEventProducer.run sub { p with stopped := true } inputs = { p with stopped := true } ∧
    PollingEventProducer.run sub { p with stopped := false } (⟨true, snap⟩ :: rest) =
      PollingEventProducer.poll_once sub { p with stopped := true } snap := by
  constructor
  · exact run_of_stopped sub _ inputs rfl
  · simp [PollingEventProducer.run]
    exact run_of_stopped sub _ rest (by rw [poll_once_stopped])

/-- C8: the first poll of a freshly constructed producer stores the snapshot
it takes as the baseline and enqueues no event (the output queue, whatever it
was, is untouched). -/
theorem first_poll_baseline (sub : DirectorySnapshot → DirectorySnapshot → DirSnapshotDiff)
    (path : PathStr) (interval : Nat) (q : Option (List QueueEntry)) (snap : DirectorySnapshot) :
    ((PollingEventProducer.init path interval q).poll_once sub snap).snapshot = some snap ∧
    ((PollingEventProducer.init path interval q).poll_once sub snap).out_event_queue = q := by
  constructor <;>
    simp [PollingEventProducer.init, PollingEventProducer.poll_once,
      PollingEventProducer.get_directory_snapshot_diff]

/-- C10: a producer whose `out_event_queue` is `None` still polls — each poll
stores the new snapshot as the previous one — but never enqueues anything and
never fails: a single poll only updates the snapshot, and an arbitrary run
still ends with no queue. -/
theorem no_queue_polls_silently (sub : DirectorySnapshot → DirectorySnapshot → DirSnapshotDiff)
    (p : PollingEventProducer) (snap : DirectorySnapshot) (inputs : List PollInput) :
    ({ p with out_event_queue := none } : PollingEventProducer).poll_once sub snap
        = { p with out_event_queue := none, snapshot := some snap } ∧
    (PollingEventProducer.run sub { p with out_event_queue := none } inputs).out_event_queue
        = none := by
  constructor
  · exact poll_once_queue_none sub _ snap rfl
  · exact run_queue_none sub inputs _ rfl

/-- C7, counterexample: on a poll whose diff holds one deleted dir and one
modified dir, the code emits the DirModified event before the DirDeleted
event, while the claimed order (deleted before modified, for dirs as for
files) puts DirDeleted first; the two orders differ. -/
theorem emit_order_spec_counterexample :
    emit_event_diff "/w" dirMixDiff
        = [("/w", FileSystemEvent.DirModifiedEvent "/w/m"),
           ("/w", FileSystemEvent.DirDeletedEvent "/w/d")] ∧
    spec_emit_order "/w" dirMixDiff
        = [("/w", FileSystemEvent.DirDeletedEvent "/w/d"),
           ("/w", FileSystemEvent.DirModifiedEvent "/w/m")] ∧
    emit_event_diff "/w" dirMixDiff ≠ spec_emit_order "/w" dirMixDiff := by
  refine ⟨rfl, rfl, ?_⟩
  decide

/-- C7, amended: every non-baseline poll of a producer with an output queue
appends to the queue exactly the events of its diff in the order files
deleted, modified, created, moved, then dirs modified, deleted, created,
moved — a stable deterministic per-poll order. -/
theorem poll_emits_in_amended_order (sub : DirectorySnapshot → DirectorySnapshot → DirSnapshotDiff)
    (p : PollingEventProducer) (prev snap : DirectorySnapshot) (q : List QueueEntry)
    (h1 : p.snapshot = some prev) (h2 : p.out_event_queue = some q) :
    (p.poll_once sub snap).out_event_queue
      = some (q ++ amended_emit_order p.path (sub snap prev)) := by
  simp [PollingEventProducer.poll_once, PollingEventProducer.get_directory_snapshot_diff, h1, h2]
  simp [emit_event_diff, amended_emit_order, List.append_assoc]

/-- C7, witness for the amended theorem at a concrete producer and diff. -/
theorem poll_emits_in_amended_order_witness :
    (({ PollingEventProducer.init "/w" 1 (some []) with
        snapshot := some ⟨[]⟩ } : PollingEventProducer).poll_once
        (fun _ _ => dirMixDiff) ⟨[]⟩).out_event_queue
      = some ([] ++ amended_emit_order "/w" dirMixDiff) :=
  poll_emits_in_amended_order (fun _ _ => dirMixDiff) _ ⟨[]⟩ ⟨[]⟩ [] rfl rfl

/-- C1: contrary to the claim, an entry whose path has no rule is not
discarded — after `add_rule` then `remove_rule` the rule dict is empty, and
dispatching a queue that still holds two entries for that path raises
`KeyError` at `self.rules[rule_path]` on the first entry: the loop ends
there, delivering nothing and never reaching the second entry. -/
theorem stale_rule_entry_raises_key_error :
    ((((PollingObserver.init 1).add_rule "/w" 0).remove_rule "/w").rules = []) ∧
    dispatch_loop (((PollingObserver.init 1).add_rule "/w" 0).remove_rule "/w").rules
        (fun _ _ => false)
        [("/w", FileSystemEvent.FileCreatedEvent "/w/a"),
         ("/w", FileSystemEvent.FileModifiedEvent "/w/b")]
      = ([], DispatchOutcome.key_error "/w") := ⟨rfl, rfl⟩

/-- C2: contrary to the claim, a failure in a handler's `dispatch` is not
caught — with a rule whose handler raises, the dispatch loop ends at the
first entry with an uncaught handler error, delivering nothing and never
dequeuing the second entry. -/
theorem handler_failure_terminates_dispatch :
    dispatch_loop [("/w", ⟨7, PollingEventProducer.init "/w" 1 none⟩)]
        (fun h _ => h == 7)
        [("/w", FileSystemEvent.FileModifiedEvent "/w/a"),
         ("/w", FileSystemEvent.FileCreatedEvent "/w/b")]
      = ([], DispatchOutcome.handler_error 7 (FileSystemEvent.FileModifiedEvent "/w/a")) := rfl

/-- C3: contrary to the claim, with two rules registered `run()` starts only
the first producer thread before entering the dispatch loop, which then
blocks forever, so the second thread's `started` flag stays false. -/
theorem run_starts_only_first_producer :
    (((PollingObserver.init 1).add_rule "/a" 0).add_rule "/b" 1).event_producer_threads.length = 2 ∧
    ((((PollingObserver.init 1).add_rule "/a" 0).add_rule "/b" 1).run
        (fun _ _ => false)).1.event_producer_threads.map (fun t => t.started)
      = [true, false] ∧
    ((((PollingObserver.init 1).add_rule "/a" 0).add_rule "/b" 1).run
        (fun _ _ => false)).2.2 = RunOutcome.blocked_on_get := ⟨rfl, rfl, rfl⟩

/-- C4: contrary to the claim, a rule added after `run()` has begun gets a
producer that is never started: the producer for the pre-existing rule is
started, the one constructed by the later `add_rule` is not. -/
theorem add_rule_while_running_does_not_start_producer :
    ((((PollingObserver.init 1).add_rule "/a" 0).run
        (fun _ _ => false)).1.add_rule "/b" 1).event_producer_threads.map
        (fun t => (t.path, t.started))
      = [("/a", true), ("/b", false)] := rfl

/-- C6: `stop()` does set every producer thread's stop flag, but contrary to
the claim it does not make `run()` return: with the queue drained the
dispatch loop stays blocked on `event_queue.get()` rather than returning. -/
theorem stop_leaves_dispatcher_blocked :
    (((PollingObserver.init 1).add_rule "/a" 0).stop).event_producer_threads.map
        (fun t => t.stopped) = [true] ∧
    ((((PollingObserver.init 1).add_rule "/a" 0).stop).run (fun _ _ => false)).2.2
      = RunOutcome.blocked_on_get := ⟨rfl, rfl⟩

/-- C9: contrary to the claim, two `add_rule` calls with distinct path
strings that canonicalize to the same path register two rules and leave two
live (un-stopped) producers, because `add_rule` keys the rule dict by the
raw string. -/
theorem duplicate_producers_for_same_canonical_path :
    canonicalize "/data" = canonicalize "/data/" ∧
    "/data" ≠ "/data/" ∧
    (((PollingObserver.init 1).add_rule "/data" 0).add_rule "/data/" 1).rules.length = 2 ∧
    (((PollingObserver.init 1).add_rule "/data" 0).add_rule "/data/" 1).event_producer_threads.map
        (fun t => (t.path, t.stopped))
      = [("/data", false), ("/data/", false)] :=
  ⟨by decide, by decide, rfl, rfl⟩
